import Mathlib

/-!
Shallow embedding of the nexus-server core (a small HTTP file-storage server):
the FileStore (src/lib/FileStore.js), the Request/Response wrappers, the
RequestError taxonomy and the Server request handlers / state machine
(src/unnamed/part_001).  JavaScript objects used as header maps are modelled
as functions `String → Option HVal` (Object.assign with later sources
overriding earlier ones becomes function override); the filesystem is a
partial map from absolute physical paths to file data; promise
resolution/rejection becomes `Except`.
-/

namespace Nexus

/-- Header values: JS header objects hold strings or numbers
(Content-Length is set to the numeric Buffer.byteLength). -/
inductive HVal where
  | str (s : String)
  | num (n : Nat)
deriving DecidableEq, Repr

/-- A JS object used as a header map. -/
def HeaderMap : Type := String → Option HVal

/-- The empty header object. -/
def noHeaders : HeaderMap := fun _ => none

/-- A plain (untyped) JS Error: only its message is relevant to the core. -/
structure JsError where
  message : String
deriving DecidableEq, Repr

/-- RequestError.BAD_REQUEST. -/
def BAD_REQUEST : Nat := 400
/-- RequestError.NOT_FOUND. -/
def NOT_FOUND : Nat := 404
/-- RequestError.INTERNAL_SERVER_ERROR. -/
def INTERNAL_SERVER_ERROR : Nat := 500
/-- RequestError.RANGE_NOT_SATISFIABLE. -/
def RANGE_NOT_SATISFIABLE : Nat := 416

/-- A typed error (class RequestError extends Error): status code, message,
response headers and the optional wrapped original error. -/
structure RequestError where
  message : String
  statusCode : Nat
  headers : HeaderMap
  orig : Option JsError

/-- The RequestError constructor: `this.headers = Object.assign({}, headers,
{ Content-Type, Content-Length, Connection })`, so those three entries
override any caller-supplied ones; Content-Length is
Buffer.byteLength(message), the UTF-8 byte length. -/
def RequestError.make (message : String) (statusCode : Nat)
    (headers : HeaderMap) (orig : Option JsError) : RequestError :=
  { message := message
    statusCode := statusCode
    headers := fun k =>
      if k = "Content-Type" then some (.str "text/plain")
      else if k = "Content-Length" then some (.num message.utf8ByteSize)
      else if k = "Connection" then some (.str "close")
      else headers k
    orig := orig }

/-- RequestError.wrap: message falls back to the original error's message
when the override is null; the original error is retained. -/
def RequestError.wrap (error : JsError) (statusCode : Nat)
    (message : Option String) (headers : HeaderMap) : RequestError :=
  RequestError.make (message.getD error.message) statusCode headers (some error)

/-- RequestError#wrapped: true when an original error was wrapped. -/
def RequestError.wrapped (e : RequestError) : Bool := e.orig.isSome

/-! ## FileStore (src/lib/FileStore.js) -/

/-- Data stored for one physical file: its bytes and its ctime (the raw
clock value standing in for the Date the real fs reports). -/
structure FileData where
  bytes : List Nat
  ctime : Nat
deriving DecidableEq, Repr

/-- The filesystem: a partial map from absolute physical paths to files. -/
def Fs : Type := String → Option FileData

/-- FileStore options (DEFAULT_OPTIONS has maxDepth = 0, i.e. unlimited).
Root existence checking is construction-time only and not relevant to the
per-operation claims, so only maxDepth is carried. -/
structure StoreOptions where
  maxDepth : Nat
deriving DecidableEq, Repr

/-- The default FileStore options: maxDepth 0 (unlimited). -/
def defaultStoreOptions : StoreOptions := { maxDepth := 0 }

/-- FileStore.MODES_READ. -/
def MODES_READ : List String := ["r"]
/-- FileStore.MODES_WRITE. -/
def MODES_WRITE : List String := ["w", "a"]

/-- The depth measure used by both stream creators:
resource.split('/').length - 1. A JS split on the one-character separator
'/' produces exactly one part per separator plus one, so this is the
number of '/' characters in the resource; for a well-formed resource path
beginning with '/' it is the segment count. -/
def resourceDepth (resource : String) : Nat :=
  (resource.toList.filter (fun c => c = '/')).length

/-- True when path.extname of the resolved path is empty: the basename
(the part after the last '/') has no '.' after its first character (node's
extname ignores a leading dot of the basename). -/
def extnameEmpty (p : String) : Bool :=
  let basename := (p.toList.reverse.takeWhile (fun c => c ≠ '/')).reverse
  !(basename.drop 1).contains '.'

/-- FileStore._getResourcePath: resolves the resource against the root
(path.resolve(root, '.' + resource), here plain concatenation since the
claims involve no '..' or '.' segments) and appends a '.' when the result
has no extension so the filesystem sees a file. -/
def getResourcePath (root resource : String) : String :=
  let resourcePath := root ++ resource
  if extnameEmpty resourcePath then resourcePath ++ "." else resourcePath

/-- Stream options for reads: optional start byte (defaulted to 0 by
Object.assign({ start: 0 }, options)) and optional inclusive end byte
(node's fs option named end). -/
structure ReadOpts where
  start : Option Nat
  stop : Option Nat
deriving DecidableEq, Repr

/-- The read options _handleRead effectively passes: none at all. -/
def defaultReadOpts : ReadOpts := { start := none, stop := none }

/-- Whether an optional range bound is present and exceeds the size
(`!isNaN(x) && x > stats.size`; an absent bound fails isNaN). -/
def optGt (o : Option Nat) (n : Nat) : Bool :=
  match o with
  | some e => decide (e > n)
  | none => false

/-- The bytes a node read stream created with these options delivers:
from the (defaulted) start offset up to the inclusive end bound. -/
def sliceBytes (content : List Nat) (ropts : ReadOpts) : List Nat :=
  match ropts.stop with
  | some e => (content.take (e + 1)).drop (ropts.start.getD 0)
  | none => content.drop (ropts.start.getD 0)

/-- What createReadStream resolves with: the stream (as the byte list it
will deliver) together with the stat metadata. -/
structure ReadResult where
  bytes : List Nat
  size : Nat
  ctime : Nat
deriving DecidableEq, Repr

/-- A promise rejection from the store: either a typed RequestError or an
untyped lower-level error (e.g. the fs.stat ENOENT callback error). -/
inductive StoreErr where
  | typed (e : RequestError)
  | untyped (e : JsError)

/-- The observable fate of a store promise: it resolves, it rejects, or an
exception thrown inside the fs callback escapes uncaught — then the promise
never settles and neither the then- nor the catch-handler of the caller
runs. -/
inductive Promise (α : Type) where
  | resolved (a : α)
  | rejected (e : StoreErr)
  | threw (msg : String)

/-- Status code of a typed store rejection, none otherwise. -/
def typedStatus {α : Type} : Promise α → Option Nat
  | .rejected (.typed e) => some e.statusCode
  | _ => none

/-- Message of a typed store rejection, none otherwise. -/
def typedMessage {α : Type} : Promise α → Option String
  | .rejected (.typed e) => some e.message
  | _ => none

/-- Whether a store promise resolved. -/
def promOk {α : Type} : Promise α → Bool
  | .resolved _ => true
  | _ => false

/-- Modelled from Node's fs.ReadStream constructor (library behaviour, not
code of this repository): since FileStore always defaults start to the
number 0, the constructor raises a RangeError exactly when an end bound is
present and smaller than start. -/
def startGtEnd (ropts : ReadOpts) : Bool :=
  match ropts.stop with
  | some e => decide (ropts.start.getD 0 > e)
  | none => false

/-- FileStore.createReadStream: rejects over-deep resources (maxDepth > 0
only; the isNaN guard of the source is vacuous for a Nat), then unsupported
modes, then stats the resolved path (an absent file rejects with the
untyped ENOENT error), then rejects unsatisfiable ranges. Otherwise it
calls fs.createReadStream inside the stat callback: a present end bound
smaller than the (defaulted) start makes Node's stream constructor throw
there — the exception is uncaught in the callback and the promise never
settles — and in every other case the promise resolves with the stream and
stats. -/
def createReadStream (fs : Fs) (root : String) (opts : StoreOptions)
    (resource mode : String) (ropts : ReadOpts) : Promise ReadResult :=
  if opts.maxDepth > 0 && resourceDepth resource > opts.maxDepth then
    .rejected (.typed (RequestError.make
      ("Maximum Resource Depth (" ++ toString opts.maxDepth ++ ") Exceeded")
      BAD_REQUEST noHeaders none))
  else
    let resourcePath := getResourcePath root resource
    if !(MODES_READ.contains mode) then
      .rejected (.typed (RequestError.make
        ("Unsupported Read Mode (" ++ mode ++ ")") BAD_REQUEST noHeaders none))
    else
      match fs resourcePath with
      | none => .rejected (.untyped { message := "ENOENT: no such file or directory" })
      | some fd =>
        if optGt (some (ropts.start.getD 0)) fd.bytes.length
            || optGt ropts.stop fd.bytes.length then
          .rejected (.typed (RequestError.make "Range Not Satisfiable"
            RANGE_NOT_SATISFIABLE noHeaders none))
        else if startGtEnd ropts then
          .threw "start must be <= end"
        else
          .resolved { bytes := sliceBytes fd.bytes ropts
                      size := fd.bytes.length
                      ctime := fd.ctime }

/-- fs.ensureFile: creates an empty file (and implied directories) when the
path is absent; an existing file is untouched. -/
def ensureFile (fs : Fs) (p : String) (now : Nat) : Fs :=
  match fs p with
  | some _ => fs
  | none => fun q => if q = p then some { bytes := [], ctime := now } else fs q

/-- The handle createWriteStream resolves with: the resolved physical path
and the open flags (the mode). -/
structure WriteHandle where
  path : String
  flags : String
deriving DecidableEq, Repr

/-- FileStore.createWriteStream: rejects over-deep resources, then
unsupported modes, then ensures the file exists and resolves with a write
stream; the filesystem after ensureFile is returned with the handle.
Node's WriteStream constructor validates only that start is a non-negative
integer, and FileStore always passes start 0 and no end, so no
constructor throw is reachable here. -/
def createWriteStream (fs : Fs) (root : String) (opts : StoreOptions)
    (resource mode : String) (now : Nat) : Promise (Fs × WriteHandle) :=
  if opts.maxDepth > 0 && resourceDepth resource > opts.maxDepth then
    .rejected (.typed (RequestError.make
      ("Maximum Resource Depth (" ++ toString opts.maxDepth ++ ") Exceeded")
      BAD_REQUEST noHeaders none))
  else
    let resourcePath := getResourcePath root resource
    if !(MODES_WRITE.contains mode) then
      .rejected (.typed (RequestError.make
        ("Unsupported Write Mode (" ++ mode ++ ")") BAD_REQUEST noHeaders none))
    else
      .resolved (ensureFile fs resourcePath now,
                 { path := resourcePath, flags := mode })

/-- The effect of piping a request body of the given bytes into a write
stream opened with the handle's flags: 'w' truncates to the body, 'a'
appends to the existing content. -/
def applyWrite (fs : Fs) (h : WriteHandle) (body : List Nat) (now : Nat) : Fs :=
  fun q =>
    if q = h.path then
      if h.flags = "a" then
        match fs q with
        | some fd => some { bytes := fd.bytes ++ body, ctime := now }
        | none => some { bytes := body, ctime := now }
      else some { bytes := body, ctime := now }
    else fs q

/-! ## Request wrapper (classification and header validation) -/

/-- JS truthiness applied to a header lookup: the resource/mode getters are
headers[name] || null, so an absent or empty header reads as null. -/
def jsHdr (h : Option String) : Option String :=
  match h with
  | some s => if s.isEmpty then none else some s
  | none => none

/-- Request action constants (ACTION_DOWNLOAD / ACTION_UPLOAD /
ACTION_INVALID). -/
inductive Action where
  | download
  | upload
  | invalid
deriving DecidableEq, Repr

/-- Request.isDownload: url is /download and method is GET. -/
def isDownload (method url : String) : Bool :=
  url == "/download" && method == "GET"

/-- Request.isUpload: url is /upload and method is PUT or POST. -/
def isUpload (method url : String) : Bool :=
  url == "/upload" && (method == "PUT" || method == "POST")

/-- Request.getAction: download, else upload, else invalid. -/
def getAction (method url : String) : Action :=
  if isDownload method url then .download
  else if isUpload method url then .upload
  else .invalid

/-- Request.hasValidResource: the X-Resource header value must be truthy
(present and non-empty) and its first character must be '/'. -/
def hasValidResource (resourceHdr : Option String) : Bool :=
  match resourceHdr with
  | none => false
  | some s => !s.isEmpty && s.front == '/'

/-- The first character of the resource header when one exists: none when
the header is absent or empty. Used to state the spec's resource-validity
condition. -/
def firstChar (resourceHdr : Option String) : Option Char :=
  match resourceHdr with
  | none => none
  | some s => if s.isEmpty then none else some s.front

/-! ## Response wrapper (the response guard) -/

/-- Response.OPEN. -/
def OPEN : Nat := 1
/-- Response.FINISHED. -/
def FINISHED : Nat := 2

/-- The underlying http.ServerResponse, as the observable bytes written to
it: whether headers were sent, the head written (status code, status
message, headers), the body written by end(), and whether it ended. -/
structure RawResponse where
  headersSent : Bool
  head : Option (Nat × String × HeaderMap)
  body : Option String
  ended : Bool

/-- The Response wrapper: its lifecycle state plus the wrapped raw
response. The finish event of the raw response moves state to FINISHED. -/
structure Response where
  state : Nat
  orig : RawResponse

/-- A freshly wrapped response: state OPEN, nothing sent yet. -/
def Response.fresh : Response :=
  { state := OPEN
    orig := { headersSent := false, head := none, body := none, ended := false } }

/-- Response.writeError: throws when the response is not open or headers
were already sent (both checked before anything is written); otherwise
writes the error's status code, message and headers as the head, ends the
response with the message as body, and the finish event marks the wrapper
FINISHED. -/
def Response.writeError (r : Response) (error : RequestError) :
    Except String Response :=
  if r.state ≠ OPEN then .error "response is not open"
  else if r.orig.headersSent then .error "headers already sent"
  else .ok
    { state := FINISHED
      orig := { headersSent := true
                head := some (error.statusCode, error.message, error.headers)
                body := some error.message
                ended := true } }

/-! ## Server (src/unnamed/part_001) -/

/-- Server.INIT. -/
def INIT : Nat := 0
/-- Server.READY. -/
def READY : Nat := 1
/-- Server.LISTENING. -/
def LISTENING : Nat := 2
/-- Server.CLOSING. -/
def CLOSING : Nat := 3
/-- Server.CLOSED. -/
def CLOSED : Nat := 4

/-- The server's lifecycle-relevant state: its ready state and whether the
underlying http server object is null. -/
structure ServerS where
  readyState : Nat
  serverNull : Bool
deriving DecidableEq, Repr

/-- A constructed server: the constructor runs _createServer, which builds
the underlying server and _attachListeners sets the ready state to READY. -/
def newServer : ServerS := { readyState := READY, serverNull := false }

/-- Server.listen: rejects unless the ready state is READY and the server
is non-null (both checked before any I/O is started); on success the
promise resolves from the listen callback, by which point the listening
event has set the ready state to LISTENING. -/
def listen (s : ServerS) : Except String ServerS :=
  if s.readyState ≠ READY then .error "incorrect ready state"
  else if s.serverNull then .error "server is null"
  else .ok { s with readyState := LISTENING }

/-- Server.close: rejects unless the ready state is LISTENING and the
server is non-null; on success the close event has set the ready state to
CLOSED by resolution time. -/
def close (s : ServerS) : Except String ServerS :=
  if s.readyState ≠ LISTENING then .error "incorrect ready state"
  else if s.serverNull then .error "server is null"
  else .ok { s with readyState := CLOSED }

/-- Server.reset: legal only from CLOSED with a non-null server; returns
the ready state to READY. -/
def reset (s : ServerS) : Except String ServerS :=
  if s.readyState ≠ CLOSED then .error "incorrect ready state"
  else if s.serverNull then .error "server is null"
  else .ok { s with readyState := READY }

/-- Success of a promise-returning call. -/
def exOk {ε α : Type} : Except ε α → Bool
  | .ok _ => true
  | .error _ => false

/-! ## Request handling (_handleRequest, _handleRead, _handleWrite) -/

/-- The observable outcome of handling one request: an error response was
written, a 200 head plus streamed bytes were written, a 100-continue was
written and the body consumed, nothing (unreachable final else), or an
exception escaped uncaught from the store callback so no response was
written at all (the store promise never settled, so neither handler
continuation ran). -/
inductive HandleResult where
  | wroteError (e : RequestError)
  | readOk (status : Nat) (headers : HeaderMap) (body : List Nat)
  | wroteContinue
  | noAction
  | uncaught (msg : String)

/-- Status code of a written error response, none otherwise. -/
def HandleResult.errStatus : HandleResult → Option Nat
  | .wroteError e => some e.statusCode
  | _ => none

/-- Message of a written error response, none otherwise. -/
def HandleResult.errMessage : HandleResult → Option String
  | .wroteError e => some e.message
  | _ => none

/-- A success-response header, none for non-success outcomes. -/
def HandleResult.okHeader (r : HandleResult) (k : String) : Option HVal :=
  match r with
  | .readOk _ h _ => h k
  | _ => none

/-- The streamed success body, none for non-success outcomes. -/
def HandleResult.okBody : HandleResult → Option (List Nat)
  | .readOk _ _ b => some b
  | _ => none

/-- The status code of a written success head, none otherwise. -/
def HandleResult.okStatus : HandleResult → Option Nat
  | .readOk s _ _ => some s
  | _ => none

/-- The catch handler shared by _handleRead and _handleWrite: a typed error
passes through unchanged; anything else is wrapped into a 404 with the
given override message. -/
def wrapCaught (e : StoreErr) (msg : String) : RequestError :=
  match e with
  | .typed re => re
  | .untyped je => RequestError.wrap je NOT_FOUND (some msg) noHeaders

/-- Server._handleRead: asks the store for a read stream for the resource
with mode X-Mode || 'r' and no stream options; on resolution writes a 200
head with Content-Length = stats.size and Last-Modified from stats.ctime
and pipes the stream; on rejection wraps untyped errors into a 404
('Resource Not Accessible') and writes the error; should the store promise
never settle, neither continuation runs (with no range options this branch
is unreachable). -/
def handleRead (fs : Fs) (root : String) (opts : StoreOptions)
    (resource : String) (modeHdr : Option String) : HandleResult :=
  match createReadStream fs root opts resource ((jsHdr modeHdr).getD "r")
      defaultReadOpts with
  | .resolved res => .readOk 200
      (fun k =>
        if k = "Content-Length" then some (.num res.size)
        else if k = "Last-Modified" then some (.num res.ctime)
        else none)
      res.bytes
  | .rejected e => .wroteError (wrapCaught e "Resource Not Accessible")
  | .threw m => .uncaught m

/-- Server._handleWrite: asks the store for a write stream for the resource
with mode X-Mode || 'w'; on success writes 100-continue and pipes the
request body into the stream; on rejection wraps untyped errors into a 404
(the source's message is the misspelt 'Resouce Not Accessible') and writes
the error. Returns the filesystem after the transfer together with the
outcome. -/
def handleWrite (fs : Fs) (root : String) (opts : StoreOptions)
    (resource : String) (modeHdr : Option String) (body : List Nat)
    (now : Nat) : Fs × HandleResult :=
  match createWriteStream fs root opts resource ((jsHdr modeHdr).getD "w") now with
  | .resolved (fs', h) => (applyWrite fs' h body now, .wroteContinue)
  | .rejected e => (fs, .wroteError (wrapCaught e "Resouce Not Accessible"))
  | .threw m => (fs, .uncaught m)

/-- Server._handleRequest: an invalid action writes a 404 Not Found; then
an invalid resource header writes a 400 Invalid Resource; then download and
upload dispatch to the read/write handlers with the resource header
value. -/
def handleRequest (fs : Fs) (root : String) (opts : StoreOptions)
    (method url : String) (resourceHdr modeHdr : Option String)
    (body : List Nat) (now : Nat) : Fs × HandleResult :=
  let action := getAction method url
  if action = .invalid then
    (fs, .wroteError (RequestError.make "Not Found" 404 noHeaders none))
  else if !hasValidResource resourceHdr then
    (fs, .wroteError (RequestError.make "Invalid Resource" 400 noHeaders none))
  else
    let resource := (jsHdr resourceHdr).getD ""
    if action = .download then
      (fs, handleRead fs root opts resource modeHdr)
    else if action = .upload then
      handleWrite fs root opts resource modeHdr body now
    else (fs, .noAction)

/-! ## Concrete fixtures used by witnesses -/

/-- The empty filesystem. -/
def fsEmpty : Fs := fun _ => none

/-- A filesystem holding one three-byte file at /root/a.txt. -/
def fsOne : Fs :=
  fun p => if p = "/root/a.txt" then some { bytes := [1, 2, 3], ctime := 7 } else none

/-- The body written by a successful writeError, none on a throw. -/
def writeErrorBody (r : Response) (e : RequestError) : Option String :=
  match r.writeError e with
  | .ok r' => r'.orig.body
  | .error _ => none

/-! ## Theorems -/

/-- C3: listen() succeeds (its state precondition holds) exactly when the
ready state is READY, close() exactly when it is LISTENING; from any other
state each rejects immediately (the rejection happens before any transport
call, so no side effects occur). A second listen() after a successful one
fails, and close() on a freshly constructed server (before any listen)
fails. -/
theorem C3_lifecycle_preconditions (s : ServerS) (hnn : s.serverNull = false) :
    (exOk (listen s) = true ↔ s.readyState = READY)
    ∧ (exOk (close s) = true ↔ s.readyState = LISTENING)
    ∧ (∀ s', listen s = .ok s' → exOk (listen s') = false)
    ∧ exOk (close newServer) = false := by
  refine ⟨?_, ?_, ?_, ?_⟩
  · by_cases h : s.readyState = READY <;> simp [listen, exOk, h, hnn]
  · by_cases h : s.readyState = LISTENING <;> simp [close, exOk, h, hnn]
  · intro s' hs'
    unfold listen at hs'
    split at hs'
    · exact absurd hs' (by simp)
    · split at hs'
      · exact absurd hs' (by simp)
      · cases hs'
        simp [listen, exOk, LISTENING, READY]
  · simp [close, exOk, newServer, READY, LISTENING]

/-- C3 witness: close() on a freshly constructed (never-listened) server
fails. -/
theorem C3_lifecycle_preconditions_witness :
    exOk (close newServer) = false :=
  (C3_lifecycle_preconditions newServer rfl).2.2.2

/-- C4: writeError succeeds exactly when the response state is OPEN and no
headers have been sent; otherwise it throws (before anything is written to
the underlying response). On success it writes the error's status code,
message and header set as the head, the message as the terminal body, ends
the response, and the wrapper finishes. -/
theorem C4_writeError_guard (r : Response) (error : RequestError) :
    (exOk (r.writeError error) = true
      ↔ (r.state = OPEN ∧ r.orig.headersSent = false))
    ∧ (∀ r', r.writeError error = .ok r' →
        r'.orig.head = some (error.statusCode, error.message, error.headers)
        ∧ r'.orig.body = some error.message
        ∧ r'.orig.ended = true
        ∧ r'.state = FINISHED) := by
  constructor
  · by_cases h1 : r.state = OPEN
    · by_cases h2 : r.orig.headersSent <;>
        simp [Response.writeError, exOk, h1, h2]
    · simp [Response.writeError, exOk, h1]
  · intro r' hr'
    unfold Response.writeError at hr'
    split at hr'
    · exact absurd hr' (by simp)
    · split at hr'
      · exact absurd hr' (by simp)
      · cases hr'
        exact ⟨rfl, rfl, rfl, rfl⟩

/-- C4 witness: writeError on a fresh open response with a concrete typed
error succeeds. -/
theorem C4_writeError_guard_witness :
    exOk (Response.fresh.writeError
      (RequestError.make "Teapot" 418 noHeaders none)) = true :=
  (C4_writeError_guard Response.fresh
    (RequestError.make "Teapot" 418 noHeaders none)).1.mpr ⟨rfl, rfl⟩

/-- C9: however a typed error is constructed, its final header set maps
Content-Type to text/plain, Content-Length to the UTF-8 byte length of the
message and Connection to close, overriding any caller-supplied entries for
those keys; and the body writeError writes on success is the error
message. -/
theorem C9_error_headers (message : String) (statusCode : Nat)
    (headers : HeaderMap) (orig : Option JsError) :
    ((RequestError.make message statusCode headers orig).headers "Content-Type"
        = some (.str "text/plain"))
    ∧ ((RequestError.make message statusCode headers orig).headers "Content-Length"
        = some (.num message.utf8ByteSize))
    ∧ ((RequestError.make message statusCode headers orig).headers "Connection"
        = some (.str "close"))
    ∧ (∀ r : Response, r.state = OPEN → r.orig.headersSent = false →
        writeErrorBody r (RequestError.make message statusCode headers orig)
          = some message) := by
  refine ⟨rfl, by simp [RequestError.make], by simp [RequestError.make], ?_⟩
  intro r h1 h2
  simp [writeErrorBody, Response.writeError, h1, h2, RequestError.make]

/-- C9 witness: a typed error built with a caller header set that tries to
override Connection still carries Connection: close, and writeError on a
fresh response writes its message as the body. -/
theorem C9_error_headers_witness :
    ((RequestError.make "hi" 500
        (fun k => if k = "Connection" then some (.str "keep-alive") else none)
        none).headers "Connection" = some (.str "close"))
    ∧ writeErrorBody Response.fresh
        (RequestError.make "hi" 500
          (fun k => if k = "Connection" then some (.str "keep-alive") else none)
          none) = some "hi" :=
  ⟨(C9_error_headers "hi" 500
      (fun k => if k = "Connection" then some (.str "keep-alive") else none)
      none).2.2.1,
   (C9_error_headers "hi" 500
      (fun k => if k = "Connection" then some (.str "keep-alive") else none)
      none).2.2.2 Response.fresh rfl rfl⟩

/-- C8: the shared catch handler of the read/write request handlers passes
a typed store failure through unchanged, and wraps an untyped failure into
a 404 typed error whose original field is exactly the originating error and
whose wrapped flag is true; and each handler writes exactly the
so-processed error when the store rejects. -/
theorem C8_error_wrapping (e : StoreErr) (msg : String) :
    (∀ re, e = .typed re → wrapCaught e msg = re)
    ∧ (∀ je, e = .untyped je →
        (wrapCaught e msg).statusCode = 404
        ∧ (wrapCaught e msg).orig = some je
        ∧ (wrapCaught e msg).wrapped = true)
    ∧ (∀ fs root opts resource modeHdr,
        createReadStream fs root opts resource ((jsHdr modeHdr).getD "r")
          defaultReadOpts = .rejected e →
        handleRead fs root opts resource modeHdr
          = .wroteError (wrapCaught e "Resource Not Accessible"))
    ∧ (∀ fs root opts resource modeHdr body now,
        createWriteStream fs root opts resource ((jsHdr modeHdr).getD "w") now
          = .rejected e →
        (handleWrite fs root opts resource modeHdr body now).2
          = .wroteError (wrapCaught e "Resouce Not Accessible")) := by
  refine ⟨?_, ?_, ?_, ?_⟩
  · intro re h; cases h; rfl
  · intro je h; cases h
    exact ⟨rfl, rfl, rfl⟩
  · intro fs root opts resource modeHdr h
    unfold handleRead
    rw [h]
  · intro fs root opts resource modeHdr body now h
    unfold handleWrite
    rw [h]

/-- C8 witness: a concrete untyped ENOENT failure is wrapped into a 404
whose original field is that error and whose wrapped flag is true. -/
theorem C8_error_wrapping_witness :
    (wrapCaught (.untyped { message := "boom" }) "Resource Not Accessible").statusCode = 404
    ∧ (wrapCaught (.untyped { message := "boom" }) "Resource Not Accessible").orig
        = some { message := "boom" }
    ∧ (wrapCaught (.untyped { message := "boom" }) "Resource Not Accessible").wrapped
        = true :=
  (C8_error_wrapping (.untyped { message := "boom" }) "Resource Not Accessible").2.1
    { message := "boom" } rfl

/-- Resource-header validity fails exactly when the header has no first
character equal to '/'. -/
lemma hasValidResource_eq_false (resourceHdr : Option String)
    (h : firstChar resourceHdr ≠ some '/') :
    hasValidResource resourceHdr = false := by
  cases resourceHdr with
  | none => rfl
  | some s =>
    by_cases hs : s.isEmpty
    · simp [hasValidResource, hs]
    · have h' : s.front ≠ '/' := by
        intro hc
        exact h (by simp [firstChar, hs, hc])
      simp [hasValidResource, hs, h']

/-- C2: a request outside the two endpoints (not GET /download and not
PUT-or-POST /upload) is answered with the 404 Not Found error whatever the
resource header holds; a request on one of the endpoints whose X-Resource
header is absent or does not begin with '/' is answered with the 400
Invalid Resource error — the action check runs first. -/
theorem C2_request_classification (fs : Fs) (root : String)
    (opts : StoreOptions) (method url : String)
    (resourceHdr modeHdr : Option String) (body : List Nat) (now : Nat) :
    (¬(method = "GET" ∧ url = "/download") →
     ¬((method = "PUT" ∨ method = "POST") ∧ url = "/upload") →
      (handleRequest fs root opts method url resourceHdr modeHdr body now).2.errStatus
          = some 404
      ∧ (handleRequest fs root opts method url resourceHdr modeHdr body now).2.errMessage
          = some "Not Found")
    ∧ (((method = "GET" ∧ url = "/download")
        ∨ ((method = "PUT" ∨ method = "POST") ∧ url = "/upload")) →
       firstChar resourceHdr ≠ some '/' →
      (handleRequest fs root opts method url resourceHdr modeHdr body now).2.errStatus
          = some 400
      ∧ (handleRequest fs root opts method url resourceHdr modeHdr body now).2.errMessage
          = some "Invalid Resource") := by
  constructor
  · intro h1 h2
    have hd : isDownload method url = false := by
      simp only [isDownload, Bool.and_eq_false_iff, beq_eq_false_iff_ne]
      by_cases hm : method = "GET"
      · exact Or.inl fun hu => h1 ⟨hm, hu⟩
      · exact Or.inr hm
    have hu : isUpload method url = false := by
      simp only [isUpload, Bool.and_eq_false_iff, Bool.or_eq_false_iff,
        beq_eq_false_iff_ne]
      by_cases hur : url = "/upload"
      · refine Or.inr ⟨fun hm => h2 ⟨Or.inl hm, hur⟩, fun hm => h2 ⟨Or.inr hm, hur⟩⟩
      · exact Or.inl hur
    constructor <;>
      simp [handleRequest, getAction, hd, hu, HandleResult.errStatus,
        HandleResult.errMessage, RequestError.make]
  · intro hact hres
    have hvr := hasValidResource_eq_false resourceHdr hres
    rcases hact with ⟨hm, hu⟩ | ⟨hm, hu⟩
    · have hd : isDownload method url = true := by simp [isDownload, hm, hu]
      constructor <;>
        simp [handleRequest, getAction, hd, hvr, HandleResult.errStatus,
          HandleResult.errMessage, RequestError.make]
    · have hd : isDownload method url = false := by simp [isDownload, hu]
      have hup : isUpload method url = true := by
        rcases hm with hm | hm <;> simp [isUpload, hm, hu]
      constructor <;>
        simp [handleRequest, getAction, hd, hup, hvr, HandleResult.errStatus,
          HandleResult.errMessage, RequestError.make]

/-- C2 witness: GET on /upload gets the 404 Not Found, and GET /download
with a resource header not starting with '/' gets the 400 Invalid
Resource. -/
theorem C2_request_classification_witness :
    ((handleRequest fsOne "/root" defaultStoreOptions "GET" "/upload"
        (some "/a.txt") none [] 0).2.errStatus = some 404)
    ∧ ((handleRequest fsOne "/root" defaultStoreOptions "GET" "/download"
        (some "a.txt") none [] 0).2.errMessage = some "Invalid Resource") :=
  ⟨((C2_request_classification fsOne "/root" defaultStoreOptions "GET" "/upload"
      (some "/a.txt") none [] 0).1 (by simp) (by simp)).1,
   ((C2_request_classification fsOne "/root" defaultStoreOptions "GET" "/download"
      (some "a.txt") none [] 0).2 (Or.inl ⟨rfl, rfl⟩) (by decide)).2⟩

/-- C7: a read-stream request with any mode other than 'r', and a
write-stream request with any mode outside {'w', 'a'}, is rejected with a
typed 400 error (the unsupported-mode rejection, or the depth rejection
when the resource is also over-deep — a 400 either way). -/
theorem C7_mode_validation (fs : Fs) (root : String) (opts : StoreOptions)
    (resource mode : String) (ropts : ReadOpts) (now : Nat) :
    (mode ≠ "r" →
      typedStatus (createReadStream fs root opts resource mode ropts) = some 400)
    ∧ (mode ≠ "w" → mode ≠ "a" →
      typedStatus (createWriteStream fs root opts resource mode now) = some 400) := by
  constructor
  · intro hm
    have hmem : mode ∉ MODES_READ := by simp [ MODES_READ, hm]
    unfold createReadStream
    split
    · simp [typedStatus, RequestError.make, BAD_REQUEST]
    · simp [hmem, typedStatus, RequestError.make, BAD_REQUEST]
  · intro hw ha
    have hmem : mode ∉ MODES_WRITE := by simp [ MODES_WRITE, hw, ha]
    unfold createWriteStream
    split
    · simp [typedStatus, RequestError.make, BAD_REQUEST]
    · simp [hmem, typedStatus, RequestError.make, BAD_REQUEST]

/-- C7 witness: reading with mode 'w' and writing with mode 'r' are both
rejected with a typed 400. -/
theorem C7_mode_validation_witness :
    typedStatus (createReadStream fsOne "/root" defaultStoreOptions
        "/a.txt" "w" defaultReadOpts) = some 400
    ∧ typedStatus (createWriteStream fsOne "/root" defaultStoreOptions
        "/a.txt" "r" 0) = some 400 :=
  ⟨(C7_mode_validation fsOne "/root" defaultStoreOptions "/a.txt" "w"
      defaultReadOpts 0).1 (by decide),
   (C7_mode_validation fsOne "/root" defaultStoreOptions "/a.txt" "r"
      defaultReadOpts 0).2 (by decide) (by decide)⟩

/-- With the options _handleRead passes (no range at all), createReadStream
can never reject with the 416 error, whatever the filesystem holds. -/
lemma createReadStream_default_no_416 (fs : Fs) (root : String)
    (opts : StoreOptions) (resource mode : String) :
    typedStatus (createReadStream fs root opts resource mode defaultReadOpts)
      ≠ some 416 := by
  unfold createReadStream
  split
  · simp [typedStatus, RequestError.make, BAD_REQUEST]
  · split
    · simp [typedStatus, RequestError.make, BAD_REQUEST]
    · dsimp only
      cases hfd : fs (getResourcePath root resource) with
      | none => simp [typedStatus]
      | some fd => simp [defaultReadOpts, optGt, startGtEnd, typedStatus]

/-- C10: the server's download handler always asks the store for a read
stream with no range options, so its effective start is the default 0 and
there is no end bound; consequently no download handled over HTTP can
produce the 416 rejection, whatever the store holds, and neither can
createReadStream itself when given those default options. -/
theorem C10_range_branch_unreachable (fs : Fs) (root : String)
    (opts : StoreOptions) (resource : String) (modeHdr : Option String) :
    (handleRead fs root opts resource modeHdr).errStatus ≠ some 416
    ∧ ∀ mode, typedStatus
        (createReadStream fs root opts resource mode defaultReadOpts)
        ≠ some 416 := by
  refine ⟨?_, fun mode => createReadStream_default_no_416 fs root opts resource mode⟩
  unfold handleRead
  cases h : createReadStream fs root opts resource ((jsHdr modeHdr).getD "r")
      defaultReadOpts with
  | resolved res => simp [HandleResult.errStatus]
  | rejected e =>
    cases e with
    | typed re =>
      have h416 := createReadStream_default_no_416 fs root opts resource
        ((jsHdr modeHdr).getD "r")
      rw [h] at h416
      simp only [typedStatus] at h416
      simp [HandleResult.errStatus, wrapCaught]
      intro hc
      exact h416 (by rw [hc])
    | untyped je =>
      simp [HandleResult.errStatus, wrapCaught, RequestError.wrap,
        RequestError.make, NOT_FOUND]
  | threw m => simp [HandleResult.errStatus]

/-- C10 witness: a concrete download of an existing file never reports
416 (and neither does the store call with default options). -/
theorem C10_range_branch_unreachable_witness :
    (handleRead fsOne "/root" defaultStoreOptions "/a.txt" none).errStatus
      ≠ some 416 :=
  (C10_range_branch_unreachable fsOne "/root" defaultStoreOptions "/a.txt" none).1

/-- The depth-rejection condition is false when the limit is 0 (unlimited)
or the depth is within the limit. -/
lemma depthCond_false {d n : Nat} (h : d = 0 ∨ n ≤ d) :
    (decide (d > 0) && decide (n > d)) = false := by
  rcases h with h | h
  · subst h; simp
  · simp [Nat.not_lt.mpr h]

/-- The range-rejection condition holds exactly when the (defaulted) start
or the present end exceeds the size. -/
lemma rangeBad_iff (s t : Option Nat) (n : Nat) :
    (optGt (some (s.getD 0)) n || optGt t n) = true
      ↔ (s.getD 0 > n ∨ ∃ e, t = some e ∧ e > n) := by
  cases t <;> simp [optGt]

/-- C5: with a configured limit d > 0, a resource deeper than d is rejected
by both stream creators with a typed 400, independently of the filesystem
(so before any filesystem access); with the depth within the limit (or the
limit 0, i.e. unlimited), the depth check passes and the operations succeed
provided the rest otherwise holds: for reads an existing file and a
satisfiable, well-ordered range (an end bound below the defaulted start
would instead trip Node's stream-constructor check), for writes a
supported mode. -/
theorem C5_depth_validation (fs fs2 : Fs) (root : String) (d : Nat)
    (resource mode : String) (ropts : ReadOpts) (now : Nat) :
    (0 < d → d < resourceDepth resource →
      typedStatus (createReadStream fs root { maxDepth := d } resource mode ropts)
          = some 400
      ∧ typedStatus (createWriteStream fs root { maxDepth := d } resource mode now)
          = some 400
      ∧ createReadStream fs root { maxDepth := d } resource mode ropts
          = createReadStream fs2 root { maxDepth := d } resource mode ropts
      ∧ createWriteStream fs root { maxDepth := d } resource mode now
          = createWriteStream fs2 root { maxDepth := d } resource mode now)
    ∧ ((d = 0 ∨ resourceDepth resource ≤ d) →
      (∀ fd, mode = "r" →
        fs (getResourcePath root resource) = some fd →
        ropts.start.getD 0 ≤ fd.bytes.length →
        (∀ e, ropts.stop = some e → e ≤ fd.bytes.length) →
        (∀ e, ropts.stop = some e → ropts.start.getD 0 ≤ e) →
        promOk (createReadStream fs root { maxDepth := d } resource mode ropts)
          = true)
      ∧ ((mode = "w" ∨ mode = "a") →
        promOk (createWriteStream fs root { maxDepth := d } resource mode now)
          = true)) := by
  constructor
  · intro h1 h2
    have hcond : (decide (d > 0) && decide (resourceDepth resource > d)) = true := by
      simp only [Bool.and_eq_true, decide_eq_true_eq]
      exact ⟨h1, h2⟩
    refine ⟨?_, ?_, ?_, ?_⟩ <;>
      simp [createReadStream, createWriteStream, hcond, typedStatus,
        RequestError.make, BAD_REQUEST]
  · intro hd
    have hcond : (decide (d > 0) && decide (resourceDepth resource > d)) = false :=
      depthCond_false hd
    constructor
    · intro fd hmode hstat hstart hstop hord
      subst hmode
      have h1 : optGt (some (ropts.start.getD 0)) fd.bytes.length = false := by
        simp [optGt, Nat.not_lt.mpr hstart]
      have h2 : optGt ropts.stop fd.bytes.length = false := by
        cases ht : ropts.stop with
        | none => rfl
        | some e => simp [optGt, Nat.not_lt.mpr (hstop e ht)]
      have hgt : startGtEnd ropts = false := by
        cases ht : ropts.stop with
        | none => simp [startGtEnd, ht]
        | some e => simp [startGtEnd, ht, Nat.not_lt.mpr (hord e ht)]
      simp [createReadStream, hcond, MODES_READ, hstat, h1, h2, hgt, promOk]
    · rintro (hm | hm) <;> subst hm <;>
        simp [createWriteStream, hcond, MODES_WRITE, promOk]

/-- C5 witness: with limit 1, reading the two-segment resource /a/b.txt is
rejected with a typed 400; with limit 2, writing it resolves; within the
limit, reading an existing file with no range resolves. -/
theorem C5_depth_validation_witness :
    typedStatus (createReadStream fsOne "/root" { maxDepth := 1 }
        "/a/b.txt" "r" defaultReadOpts) = some 400
    ∧ promOk (createWriteStream fsEmpty "/root" { maxDepth := 2 }
        "/a/b.txt" "w" 0) = true
    ∧ promOk (createReadStream fsOne "/root" { maxDepth := 1 }
        "/a.txt" "r" defaultReadOpts) = true :=
  ⟨((C5_depth_validation fsOne fsEmpty "/root" 1 "/a/b.txt" "r"
      defaultReadOpts 0).1 (by decide) (by decide)).1,
   ((C5_depth_validation fsEmpty fsOne "/root" 2 "/a/b.txt" "w"
      defaultReadOpts 0).2 (Or.inr (by decide))).2 (Or.inl rfl),
   ((C5_depth_validation fsOne fsEmpty "/root" 1 "/a.txt" "r"
      defaultReadOpts 0).2 (Or.inr (by decide))).1
     { bytes := [1, 2, 3], ctime := 7 } rfl rfl (by decide)
     (fun e he => by cases he) (fun e he => by cases he)⟩

/-- C6: on a read that passes the depth check, in mode 'r', of an existing
file of size S, the store rejects with the typed 416 exactly when the
(defaulted) start exceeds S or a present end exceeds S — bounds equal to S
do not trip the check and no start-end ordering enters it; a satisfiable
range with start not past the end resolves (an inverted in-bounds range is
still not a 416: it raises Node's stream-constructor error instead, after
the 416 check and so not before a stream is created). -/
theorem C6_range_validation (fs : Fs) (root : String) (opts : StoreOptions)
    (resource : String) (ropts : ReadOpts) (fd : FileData)
    (hdepth : opts.maxDepth = 0 ∨ resourceDepth resource ≤ opts.maxDepth)
    (hstat : fs (getResourcePath root resource) = some fd) :
    (typedStatus (createReadStream fs root opts resource "r" ropts) = some 416
      ↔ (ropts.start.getD 0 > fd.bytes.length
          ∨ ∃ e, ropts.stop = some e ∧ e > fd.bytes.length))
    ∧ (¬(ropts.start.getD 0 > fd.bytes.length
          ∨ ∃ e, ropts.stop = some e ∧ e > fd.bytes.length) →
        (∀ e, ropts.stop = some e → ropts.start.getD 0 ≤ e) →
        promOk (createReadStream fs root opts resource "r" ropts) = true) := by
  have hcond : (decide (opts.maxDepth > 0)
      && decide (resourceDepth resource > opts.maxDepth)) = false :=
    depthCond_false hdepth
  by_cases hrange : (optGt (some (ropts.start.getD 0)) fd.bytes.length
      || optGt ropts.stop fd.bytes.length) = true
  · constructor
    · rw [iff_true_right ((rangeBad_iff ropts.start ropts.stop fd.bytes.length).mp hrange)]
      simp [createReadStream, hcond, MODES_READ, hstat, hrange, typedStatus,
        RequestError.make, RANGE_NOT_SATISFIABLE]
    · intro hn _
      exact absurd ((rangeBad_iff ropts.start ropts.stop fd.bytes.length).mp hrange) hn
  · have hrf : (optGt (some (ropts.start.getD 0)) fd.bytes.length
        || optGt ropts.stop fd.bytes.length) = false := by
      simpa using hrange
    constructor
    · rw [iff_false_right (fun hr =>
        hrange ((rangeBad_iff ropts.start ropts.stop fd.bytes.length).mpr hr))]
      by_cases hgt : startGtEnd ropts = true
      · simp [createReadStream, hcond, MODES_READ, hstat, hrf, hgt, typedStatus]
      · simp [createReadStream, hcond, MODES_READ, hstat, hrf, hgt, typedStatus]
    · intro _ hord
      have hgt : startGtEnd ropts = false := by
        cases ht : ropts.stop with
        | none => simp [startGtEnd, ht]
        | some e => simp [startGtEnd, ht, Nat.not_lt.mpr (hord e ht)]
      simp [createReadStream, hcond, MODES_READ, hstat, hrf, hgt, promOk]

/-- C6 witness: on the three-byte file, start 5 is rejected with 416; the
extreme satisfiable range start 3, end 3 (both equal to the size) resolves;
and the inverted in-bounds range start 2, end 1 is not a 416 either. -/
theorem C6_range_validation_witness :
    typedStatus (createReadStream fsOne "/root" defaultStoreOptions "/a.txt" "r"
        { start := some 5, stop := none }) = some 416
    ∧ promOk (createReadStream fsOne "/root" defaultStoreOptions "/a.txt" "r"
        { start := some 3, stop := some 3 }) = true
    ∧ ¬typedStatus (createReadStream fsOne "/root" defaultStoreOptions "/a.txt" "r"
        { start := some 2, stop := some 1 }) = some 416 :=
  ⟨(C6_range_validation fsOne "/root" defaultStoreOptions "/a.txt"
      { start := some 5, stop := none } { bytes := [1, 2, 3], ctime := 7 }
      (Or.inl rfl) rfl).1.mpr (Or.inl (by decide)),
   (C6_range_validation fsOne "/root" defaultStoreOptions "/a.txt"
      { start := some 3, stop := some 3 } { bytes := [1, 2, 3], ctime := 7 }
      (Or.inl rfl) rfl).2 (by simp)
     (fun e he => by injection he with h; subst h; decide),
   fun hc => by
    have h16 := (C6_range_validation fsOne "/root" defaultStoreOptions "/a.txt"
      { start := some 2, stop := some 1 } { bytes := [1, 2, 3], ctime := 7 }
      (Or.inl rfl) rfl).1.mp hc
    simp at h16⟩

/-- C1: uploading content C to a valid, depth-admissible resource in mode
'w' (the handler writes 100-continue and stores exactly C), then
downloading the same resource in mode 'r', yields a 200 whose
Content-Length header is the length of C and whose streamed body is
exactly C. -/
theorem C1_roundtrip (fs : Fs) (root : String) (opts : StoreOptions)
    (resource : String) (content : List Nat) (now : Nat)
    (_hvalid : firstChar (some resource) = some '/')
    (hdepth : opts.maxDepth = 0 ∨ resourceDepth resource ≤ opts.maxDepth) :
    ((handleWrite fs root opts resource (some "w") content now).2
        = .wroteContinue)
    ∧ ((handleRead (handleWrite fs root opts resource (some "w") content now).1
        root opts resource (some "r")).okStatus = some 200)
    ∧ ((handleRead (handleWrite fs root opts resource (some "w") content now).1
        root opts resource (some "r")).okHeader "Content-Length"
        = some (.num content.length))
    ∧ ((handleRead (handleWrite fs root opts resource (some "w") content now).1
        root opts resource (some "r")).okBody = some content) := by
  have hcond : (decide (opts.maxDepth > 0)
      && decide (resourceDepth resource > opts.maxDepth)) = false :=
    depthCond_false hdepth
  have hjsw : jsHdr (some "w") = some "w" := by decide
  have hjsr : jsHdr (some "r") = some "r" := by decide
  have hwrite : handleWrite fs root opts resource (some "w") content now
      = (applyWrite (ensureFile fs (getResourcePath root resource) now)
          { path := getResourcePath root resource, flags := "w" } content now,
         .wroteContinue) := by
    simp [handleWrite, hjsw, createWriteStream, hcond, MODES_WRITE]
  have hfile : applyWrite (ensureFile fs (getResourcePath root resource) now)
      { path := getResourcePath root resource, flags := "w" } content now
      (getResourcePath root resource) = some { bytes := content, ctime := now } := by
    simp [applyWrite]
  have hread : handleRead (handleWrite fs root opts resource (some "w") content now).1
      root opts resource (some "r")
      = .readOk 200
          (fun k =>
            if k = "Content-Length" then some (.num content.length)
            else if k = "Last-Modified" then some (.num now)
            else none)
          content := by
    rw [hwrite]
    simp [handleRead, hjsr, createReadStream, hcond, MODES_READ, hfile,
      optGt, startGtEnd, defaultReadOpts, sliceBytes]
  refine ⟨by rw [hwrite], ?_, ?_, ?_⟩ <;>
    simp [hread, HandleResult.okStatus, HandleResult.okHeader, HandleResult.okBody]

/-- C1 witness: writing the three bytes 9, 8, 7 to /a.txt on the empty
store and reading them back yields a 200 with Content-Length 3 and exactly
those bytes. -/
theorem C1_roundtrip_witness :
    ((handleRead (handleWrite fsEmpty "/root" defaultStoreOptions "/a.txt"
        (some "w") [9, 8, 7] 5).1 "/root" defaultStoreOptions "/a.txt"
        (some "r")).okHeader "Content-Length" = some (.num 3))
    ∧ ((handleRead (handleWrite fsEmpty "/root" defaultStoreOptions "/a.txt"
        (some "w") [9, 8, 7] 5).1 "/root" defaultStoreOptions "/a.txt"
        (some "r")).okBody = some [9, 8, 7]) :=
  ⟨(C1_roundtrip fsEmpty "/root" defaultStoreOptions "/a.txt" [9, 8, 7] 5
      (by decide) (Or.inl rfl)).2.2.1,
   (C1_roundtrip fsEmpty "/root" defaultStoreOptions "/a.txt" [9, 8, 7] 5
      (by decide) (Or.inl rfl)).2.2.2⟩

end Nexus
